import Mathlib

/-!
Verification development for the ethercat-control repository.

The definitions below are a shallow embedding of the Python source:

* `src/drive_demo.py` — the LC10E cyclic-synchronous-velocity demo
  (`LC10ECsvDemo`): PDO mapping, statusword decoding, output packing,
  the state-transition waits, the cyclic hold loop, and the session
  bring-up and teardown in `run`.
* `src/ethercat_control/controller.py` — `EtherCATController`: the
  CiA-402 enable sequence, quick stop, target setters, the homing
  sequencer, and `_wait_status`.
* `src/ethercat_control/config.py` — the setup data model and the
  `save_setup` and `load_setup` persistence pair.

Modelling conventions:

* SDO register writes are recorded as `SdoWrite` values (index,
  subindex, little-endian data bytes), in the order the source issues
  them.
* Wall-clock time is modelled in milliseconds.  The polling loops in
  `_wait_status` (`time.sleep(0.01)`) and `_reach_state`
  (`time.sleep(0.05)`) advance a discrete clock by their respective
  sleep interval; register reads and process-data exchanges are taken
  as instantaneous.  A device is modelled as the function from the
  sample time to the statusword it reports.
* Exceptions are modelled with `Except`; error payloads carry the data
  a caller can inspect (and, for controller operations, the register
  writes that were already issued when the error was raised).
-/

namespace EthercatControl

/-! ## Little-endian byte encodings (`struct.pack` / `int.to_bytes`) -/

/-- Bytes of `struct.pack("<H", n)` — unsigned 16-bit little endian. -/
def u16le (n : Nat) : List Nat := [n % 256, n / 256 % 256]

/-- Bytes of `struct.pack("<I", n)` — unsigned 32-bit little endian. -/
def u32le (n : Nat) : List Nat :=
  [n % 256, n / 256 % 256, n / 65536 % 256, n / 16777216 % 256]

/-- Bytes of `struct.pack("<i", z)` — signed 32-bit little endian
(twos complement). -/
def i32le (z : Int) : List Nat := u32le (z % 4294967296).toNat

/-- One recorded `sdo_write(index, subindex, data)` call. -/
structure SdoWrite where
  index : Nat
  sub : Nat
  data : List Nat
deriving DecidableEq, Repr

/-! ## The bounded polling loop

Both `EtherCATController._wait_status` and `LC10ECsvDemo._reach_state`
are `while time.time() < deadline` loops that sample the statusword,
return on a masked match, and otherwise sleep a fixed interval.
`waitLoop` is that loop with the clock made explicit: `t` is the
current time in ms, `timeout` the deadline, `I` the sleep interval,
and `fuel` an upper bound on the remaining iterations (the callers
below always supply enough fuel, which the lemmas make precise).  The
error value is the clock at which the loop gave up. -/

def waitLoop (status : Nat → Nat) (mask value I timeout : Nat) :
    Nat → Nat → Except Nat Nat
  | 0, t => Except.error t
  | fuel + 1, t =>
    if t < timeout then
      if status t &&& mask = value then Except.ok t
      else waitLoop status mask value I timeout fuel (t + I)
    else Except.error t

/-- Embedding of `EtherCATController._wait_status`: polls `0x6041` every 10 ms until
`status &&& mask = value`, raising `TimeoutError` at the deadline.
`timeout` is in ms (the source passes seconds; `timeout=1.0` is

`1000`). -/
def waitStatus (status : Nat → Nat) (mask value timeout : Nat) : Except Nat Nat :=
  waitLoop status mask value 10 timeout (timeout + 1) 0

/-- Embedding of `LC10ECsvDemo._reach_state`: same loop shape, but sampling through
`_exchange_pd`, with the fixed state mask `0x006F` and a 50 ms sleep.
The error value is the clock at which the loop gave up; the source
returns `False` there (`reachState` below is that boolean view). -/
def reachStateE (status : Nat → Nat) (expected timeout : Nat) : Except Nat Nat :=
  waitLoop status 0x006F expected 50 timeout (timeout + 1) 0

/-- Boolean result of `_reach_state` as the Python caller sees it. -/
def reachState (status : Nat → Nat) (expected timeout : Nat) : Bool :=
  match reachStateE status expected timeout with
  | Except.ok _ => true
  | Except.error _ => false

theorem waitLoop_error_of_nomatch (status : Nat → Nat) (mask value I timeout : Nat)
    (hnm : ∀ u, status u &&& mask ≠ value) :
    ∀ fuel t, timeout ≤ t + fuel * I → t < timeout + I →
      ∃ tf, waitLoop status mask value I timeout fuel t = Except.error tf ∧
        timeout ≤ tf ∧ tf < timeout + I := by
  intro fuel
  induction fuel with
  | zero =>
    intro t h1 h2
    simp only [Nat.zero_mul] at h1
    exact ⟨t, rfl, by omega, h2⟩
  | succ n ih =>
    intro t h1 h2
    rw [Nat.succ_mul] at h1
    by_cases ht : t < timeout
    · have := hnm t
      have hrec := ih (t + I) (by omega) (by omega)
      simpa [waitLoop, ht, this] using hrec
    · exact ⟨t, by simp [waitLoop, ht], by omega, h2⟩

theorem waitLoop_error_exact (status : Nat → Nat) (mask value I timeout : Nat)
    (hd : I ∣ timeout)
    (hnm : ∀ u, status u &&& mask ≠ value) :
    ∀ fuel t, I ∣ t → t ≤ timeout → timeout ≤ t + fuel * I →
      waitLoop status mask value I timeout fuel t = Except.error timeout := by
  intro fuel
  induction fuel with
  | zero =>
    intro t _ h2 h3
    simp only [Nat.zero_mul] at h3
    have : t = timeout := by omega
    simp [waitLoop, this]
  | succ n ih =>
    intro t hdt h2 h3
    rw [Nat.succ_mul] at h3
    by_cases ht : t < timeout
    · have hstep : t + I ≤ timeout := by
        obtain ⟨a, ha⟩ := hdt
        obtain ⟨b, hb⟩ := hd
        subst ha
        subst hb
        have hab : a < b := Nat.lt_of_mul_lt_mul_left ht
        calc I * a + I = I * (a + 1) := by ring
          _ ≤ I * b := Nat.mul_le_mul_left I (by omega)
      have hrec := ih (t + I) (Dvd.dvd.add hdt (dvd_refl I)) hstep (by omega)
      simp [waitLoop, ht, hnm t, hrec]
    · have : t = timeout := by omega
      simp [waitLoop, ht, this]

theorem waitLoop_ok_spec (status : Nat → Nat) (mask value I timeout : Nat) :
    ∀ fuel t tOk, waitLoop status mask value I timeout fuel t = Except.ok tOk →
      status tOk &&& mask = value ∧ tOk < timeout ∧
        ∃ k, tOk = t + I * k ∧ ∀ j, j < k → status (t + I * j) &&& mask ≠ value := by
  intro fuel
  induction fuel with
  | zero =>
    intro t tOk h
    simp [waitLoop] at h
  | succ n ih =>
    intro t tOk h
    by_cases ht : t < timeout
    · by_cases hm : status t &&& mask = value
      · have : tOk = t := by simpa [waitLoop, ht, hm] using h.symm
        subst this
        exact ⟨hm, ht, 0, by omega, by omega⟩
      · have h' : waitLoop status mask value I timeout n (t + I) = Except.ok tOk := by
          simpa [waitLoop, ht, hm] using h
        obtain ⟨hv, hlt, k, hk, hprev⟩ := ih (t + I) tOk h'
        refine ⟨hv, hlt, k + 1, by rw [Nat.mul_succ]; omega, ?_⟩
        intro j hj
        match j with
        | 0 => simpa using hm
        | j' + 1 =>
          have := hprev j' (by omega)
          have harith : t + I * (j' + 1) = t + I + I * j' := by ring
          rw [harith]
          exact this
    · simp [waitLoop, ht] at h

theorem waitLoop_error_nomatch (status : Nat → Nat) (mask value I timeout : Nat) :
    ∀ fuel t tf, waitLoop status mask value I timeout fuel t = Except.error tf →
      timeout ≤ t + fuel * I →
      ∀ k, t + I * k < timeout → status (t + I * k) &&& mask ≠ value := by
  intro fuel
  induction fuel with
  | zero =>
    intro t tf _ hfu k hk
    simp only [Nat.zero_mul] at hfu
    have : t ≤ t + I * k := Nat.le_add_right t (I * k)
    omega
  | succ n ih =>
    intro t tf h hfu k hk
    rw [Nat.succ_mul] at hfu
    by_cases ht : t < timeout
    · by_cases hm : status t &&& mask = value
      · simp [waitLoop, ht, hm] at h
      · have h' : waitLoop status mask value I timeout n (t + I) = Except.error tf := by
          simpa [waitLoop, ht, hm] using h
        match k with
        | 0 => simpa using hm
        | k' + 1 =>
          have harith : t + I * (k' + 1) = t + I + I * k' := by ring
          rw [harith] at hk ⊢
          exact ih (t + I) tf h' (by omega) k' hk
    · omega

/-! ## `EtherCATController` (src/ethercat_control/controller.py)

The controller keeps a name-keyed map of configured servos
(`self.servos`); every public per-drive operation first resolves the
name through `_servo`, which raises `KeyError` for unknown names, and
only then issues SDO writes.  Operations are embedded as functions
returning `Except (CtrlErr × List SdoWrite) (List SdoWrite)`: the
ok value is the list of writes issued, and an error carries the
specific error kind together with the writes already issued when the
exception was raised. -/

/-- Controller-side view of a `Homing` config (`config.py`): `method`
and `offset` are plain ints, the rest optional.  `home` never reads
`offset`; the field is kept because the dataclass has it. -/
structure HomingCfg where
  method : Nat
  offset : Int
  speed_fast : Option Nat
  speed_slow : Option Nat
  accel : Option Nat
deriving DecidableEq, Repr

/-- Controller-side view of `Limits`: the three profile registers
written by `_write_profile_limits`. -/
structure LimitsCtl where
  max_rpm : Nat
  accel_rpm_s : Nat
  decel_rpm_s : Nat
deriving DecidableEq, Repr

/-- One configured servo as held in `EtherCATController.servos`. -/
structure ServoCtl where
  name : String
  homing : HomingCfg
  limits : LimitsCtl
deriving DecidableEq, Repr

/-- The `EtherCATController` state relevant here: the configured servo
map, modelled as an association list in insertion order. -/
structure Controller where
  servos : List ServoCtl
deriving DecidableEq, Repr

/-- The `self.servos` lookup used by `_servo`. -/
def findServo (c : Controller) (name : String) : Option ServoCtl :=
  c.servos.find? (fun s => s.name == name)

/-- The `KeyError` message raised by `_servo` (quoting omitted). -/
def keyMsg (name : String) : String :=
  "Servo " ++ name ++ " not configured."

/-- The error kinds a controller operation can raise: `KeyError` from
`_servo`, or `TimeoutError` from `_wait_status` (carrying the mask,
expected value, and the clock at which the wait gave up). -/
inductive CtrlErr where
  | keyError (msg : String)
  | timeout (mask value tf : Nat)
deriving DecidableEq, Repr

/-- The three stages of `enable_drive`, exactly as in the source:
`(controlword, mask, expected masked statusword)`.  Note the first
stage masks with `0x004F`, not `0x006F`. -/
def enable_drive_seq : List (Nat × Nat × Nat) :=
  [(0x0006, 0x004F, 0x0021), (0x0007, 0x006F, 0x0023), (0x000F, 0x006F, 0x0027)]

/-- The `for cw, mask, value in sequence` loop of `enable_drive`:
write the controlword, then `_wait_status(mask, value, timeout=1.0)`.
`acc` is the list of writes issued so far. -/
def runStages (status : Nat → Nat) :
    List (Nat × Nat × Nat) → List SdoWrite → Except (CtrlErr × List SdoWrite) (List SdoWrite)
  | [], acc => Except.ok acc
  | (cw, mask, value) :: rest, acc =>
    let acc' := acc ++ [⟨0x6040, 0, u16le cw⟩]
    match waitStatus status mask value 1000 with
    | Except.ok _ => runStages status rest acc'
    | Except.error tf => Except.error (CtrlErr.timeout mask value tf, acc')

/-- Embedding of `EtherCATController.enable_drive` after the `_servo` lookup. -/
def enable_stages (status : Nat → Nat) : Except (CtrlErr × List SdoWrite) (List SdoWrite) :=
  runStages status enable_drive_seq []

/-- Embedding of `EtherCATController.enable_drive`. -/
def enable_drive_ctrl (c : Controller) (name : String) (status : Nat → Nat) :
    Except (CtrlErr × List SdoWrite) (List SdoWrite) :=
  match findServo c name with
  | none => Except.error (CtrlErr.keyError (keyMsg name), [])
  | some _ => enable_stages status

/-- Embedding of `EtherCATController.quick_stop`: controlword `0x000B`. -/
def quick_stop_ctrl (c : Controller) (name : String) :
    Except (CtrlErr × List SdoWrite) (List SdoWrite) :=
  match findServo c name with
  | none => Except.error (CtrlErr.keyError (keyMsg name), [])
  | some _ => Except.ok [⟨0x6040, 0, u16le 0x000B⟩]

/-- Embedding of `_write_profile_limits`: profile velocity / accel / decel. -/
def limitsWrites (l : LimitsCtl) : List SdoWrite :=
  [⟨0x6081, 0, u32le l.max_rpm⟩, ⟨0x6083, 0, u32le l.accel_rpm_s⟩,
   ⟨0x6084, 0, u32le l.decel_rpm_s⟩]

/-- Embedding of `EtherCATController.set_target_position`: mode 1, limits, target
`0x607A`, then the set-point toggle `0x003F` / `0x001F`. -/
def set_target_position_ctrl (c : Controller) (name : String) (pos : Int) :
    Except (CtrlErr × List SdoWrite) (List SdoWrite) :=
  match findServo c name with
  | none => Except.error (CtrlErr.keyError (keyMsg name), [])
  | some s =>
    Except.ok ([⟨0x6060, 0, [1]⟩] ++ limitsWrites s.limits ++
      [⟨0x607A, 0, i32le pos⟩, ⟨0x6040, 0, u16le 0x003F⟩, ⟨0x6040, 0, u16le 0x001F⟩])

/-- Embedding of `EtherCATController.set_target_velocity`: mode 3, limits, target
`0x60FF`, controlword `0x000F`. -/
def set_target_velocity_ctrl (c : Controller) (name : String) (vel : Int) :
    Except (CtrlErr × List SdoWrite) (List SdoWrite) :=
  match findServo c name with
  | none => Except.error (CtrlErr.keyError (keyMsg name), [])
  | some s =>
    Except.ok ([⟨0x6060, 0, [3]⟩] ++ limitsWrites s.limits ++
      [⟨0x60FF, 0, i32le vel⟩, ⟨0x6040, 0, u16le 0x000F⟩])

/-- The SDO writes issued by `EtherCATController.home` before its
wait: mode Homing (6), homing method `0x6098`, then
fast speed / slow speed / acceleration each only when the config
field is present, then the start-homing controlword `0x001F`.  No
write ever targets a home-offset register. -/
def homeWrites (cfg : HomingCfg) : List SdoWrite :=
  [⟨0x6060, 0, [6]⟩, ⟨0x6098, 0, [cfg.method % 256]⟩] ++
  (match cfg.speed_fast with
   | some v => [⟨0x6099, 1, u32le v⟩]
   | none => []) ++
  (match cfg.speed_slow with
   | some v => [⟨0x6099, 2, u32le v⟩]
   | none => []) ++
  (match cfg.accel with
   | some v => [⟨0x609A, 0, u32le v⟩]
   | none => []) ++
  [⟨0x6040, 0, u16le 0x001F⟩]

/-- Embedding of `EtherCATController.home` after the `_servo` lookup: the issued
writes together with the result of
`_wait_status(mask=0x3000, value=0x1000, timeout=10.0)`. -/
def home (cfg : HomingCfg) (status : Nat → Nat) : List SdoWrite × Except Nat Nat :=
  (homeWrites cfg, waitStatus status 0x3000 0x1000 10000)

/-- Embedding of `EtherCATController.home`. -/
def home_ctrl (c : Controller) (name : String) (status : Nat → Nat) :
    Except (CtrlErr × List SdoWrite) (List SdoWrite) :=
  match findServo c name with
  | none => Except.error (CtrlErr.keyError (keyMsg name), [])
  | some s =>
    match waitStatus status 0x3000 0x1000 10000 with
    | Except.ok _ => Except.ok (homeWrites s.homing)
    | Except.error tf => Except.error (CtrlErr.timeout 0x3000 0x1000 tf, homeWrites s.homing)

/-- Bit 5 (`0x0020`) of `0x0021` lies outside the mask `0x004F`, so no
statusword can satisfy the first-stage wait of `enable_drive`. -/
theorem and_4F_ne_21 (x : Nat) : x &&& 0x004F ≠ 0x0021 := by
  intro h
  have hbit := congrArg (fun n => Nat.testBit n 5) h
  simp only [Nat.testBit_and] at hbit
  have h4F : Nat.testBit 0x004F 5 = false := by decide
  have h21 : Nat.testBit 0x0021 5 = true := by decide
  rw [h4F, h21, Bool.and_false] at hbit
  exact Bool.false_ne_true hbit

/-- Claim C1: the drive-enable operation of `EtherCATController` is
claimed to be FaultReset, then Shutdown (0x0006, expecting masked
statusword 0x0021), then SwitchOn, then EnableOperation.  The code
instead starts directly at Shutdown (no FaultReset stage), and its
Shutdown stage waits for `status &&& 0x004F = 0x0021`, which no
statusword satisfies: every invocation — whatever statusword history
the drive reports, including a drive that reports exactly 0x0021 —
writes the single controlword 0x0006 and then times out after the
1000 ms stage timeout. -/
theorem c1_enable_times_out_in_shutdown_stage (status : Nat → Nat) :
    enable_stages status =
      Except.error (CtrlErr.timeout 0x004F 0x0021 1000, [⟨0x6040, 0, u16le 0x0006⟩]) := by
  have hw : waitStatus status 0x004F 0x0021 1000 = Except.error 1000 :=
    waitLoop_error_exact status 0x004F 0x0021 10 1000 (by norm_num)
      (fun u => and_4F_ne_21 (status u)) 1001 0 (Dvd.intro 0 rfl) (by omega) (by omega)
  simp [enable_stages, enable_drive_seq, runStages, hw]

/-- Claim C9: for every servo name that is not in the configured servo
map, each public per-drive operation (`enable_drive`, `quick_stop`,
`set_target_position`, `set_target_velocity`, `home`) raises a
`KeyError` naming the servo, with an empty list of issued writes —
i.e. before any register or bus write — leaving device and controller
state unchanged. -/
theorem c9_unknown_servo_keyerror (c : Controller) (name : String)
    (status : Nat → Nat) (pos vel : Int)
    (h : findServo c name = none) :
    enable_drive_ctrl c name status = Except.error (CtrlErr.keyError (keyMsg name), []) ∧
    quick_stop_ctrl c name = Except.error (CtrlErr.keyError (keyMsg name), []) ∧
    set_target_position_ctrl c name pos = Except.error (CtrlErr.keyError (keyMsg name), []) ∧
    set_target_velocity_ctrl c name vel = Except.error (CtrlErr.keyError (keyMsg name), []) ∧
    home_ctrl c name status = Except.error (CtrlErr.keyError (keyMsg name), []) := by
  refine ⟨?_, ?_, ?_, ?_, ?_⟩ <;>
    simp [enable_drive_ctrl, quick_stop_ctrl, set_target_position_ctrl,
      set_target_velocity_ctrl, home_ctrl, h]

/-- Witness for C9 at a concrete controller with no configured servos
and the name `axis1`. -/
theorem c9_unknown_servo_keyerror_witness :
    enable_drive_ctrl ⟨[]⟩ "axis1" (fun _ => 0) =
      Except.error (CtrlErr.keyError (keyMsg "axis1"), []) ∧
    quick_stop_ctrl ⟨[]⟩ "axis1" =
      Except.error (CtrlErr.keyError (keyMsg "axis1"), []) ∧
    set_target_position_ctrl ⟨[]⟩ "axis1" 0 =
      Except.error (CtrlErr.keyError (keyMsg "axis1"), []) ∧
    set_target_velocity_ctrl ⟨[]⟩ "axis1" 0 =
      Except.error (CtrlErr.keyError (keyMsg "axis1"), []) ∧
    home_ctrl ⟨[]⟩ "axis1" (fun _ => 0) =
      Except.error (CtrlErr.keyError (keyMsg "axis1"), []) :=
  c9_unknown_servo_keyerror ⟨[]⟩ "axis1" (fun _ => 0) 0 0 rfl

/-- Counterexample to claim C5 as stated: not every transition-wait
polls at a fixed 10 ms sub-interval.  Against a drive whose
statusword equals the expected `Ready to switch on` value exactly at
the 10 ms mark, the controller wait `_wait_status` (10 ms polling)
succeeds at t = 10 ms, while the demo wait `_reach_state` — one of
the transition-waits the claim covers — samples only at t = 0 (its
next sample would be at t = 50 ms) and therefore times out. -/
theorem c5_reach_state_polls_at_50ms :
    reachStateE (fun t => if t = 10 then 0x0021 else 0) 0x0021 50 = Except.error 50 ∧
    waitStatus (fun t => if t = 10 then 0x0021 else 0) 0x006F 0x0021 50 = Except.ok 10 := by
  constructor
  · rfl
  · rfl

/-- Claim C5 (amended): every transition-wait is bounded by the
caller-supplied timeout and fails with a timeout exactly when no poll
before the deadline observes the expected masked value — but the two
implementations poll at different fixed sub-intervals:
`_wait_status` every 10 ms, `_reach_state` every 50 ms.  Against a
device that never matches, each fails within its timeout plus one of
its own poll intervals, not unboundedly; a successful wait returns at
the first matching poll. -/
theorem c5_wait_bounded (status : Nat → Nat) (mask value expected timeout : Nat) :
    ((∀ u, status u &&& mask ≠ value) →
      ∃ tf, waitStatus status mask value timeout = Except.error tf ∧
        timeout ≤ tf ∧ tf < timeout + 10) ∧
    (∀ tOk, waitStatus status mask value timeout = Except.ok tOk →
      status tOk &&& mask = value ∧ tOk < timeout ∧ tOk % 10 = 0 ∧
        ∀ u, u < tOk → u % 10 = 0 → status u &&& mask ≠ value) ∧
    (∀ tf, waitStatus status mask value timeout = Except.error tf →
      ∀ u, u < timeout → u % 10 = 0 → status u &&& mask ≠ value) ∧
    ((∀ u, status u &&& 0x006F ≠ expected) →
      ∃ tf, reachStateE status expected timeout = Except.error tf ∧
        timeout ≤ tf ∧ tf < timeout + 50) ∧
    (∀ tf, reachStateE status expected timeout = Except.error tf →
      ∀ u, u < timeout → u % 50 = 0 → status u &&& 0x006F ≠ expected) := by
  refine ⟨?_, ?_, ?_, ?_, ?_⟩
  · intro hnm
    exact waitLoop_error_of_nomatch status mask value 10 timeout hnm (timeout + 1) 0
      (by rw [Nat.succ_mul]; omega) (by omega)
  · intro tOk h
    obtain ⟨hv, hlt, k, hk, hprev⟩ :=
      waitLoop_ok_spec status mask value 10 timeout (timeout + 1) 0 tOk h
    refine ⟨hv, hlt, by omega, ?_⟩
    intro u hu hmod
    have : u = 0 + 10 * (u / 10) := by omega
    rw [this]
    exact hprev (u / 10) (by omega)
  · intro tf h u hu hmod
    have : u = 0 + 10 * (u / 10) := by omega
    rw [this]
    exact waitLoop_error_nomatch status mask value 10 timeout (timeout + 1) 0 tf h
      (by rw [Nat.succ_mul]; omega) (u / 10) (by omega)
  · intro hnm
    exact waitLoop_error_of_nomatch status 0x006F expected 50 timeout hnm (timeout + 1) 0
      (by rw [Nat.succ_mul]; omega) (by omega)
  · intro tf h u hu hmod
    have : u = 0 + 50 * (u / 50) := by omega
    rw [this]
    exact waitLoop_error_nomatch status 0x006F expected 50 timeout (timeout + 1) 0 tf h
      (by rw [Nat.succ_mul]; omega) (u / 50) (by omega)

/-- Witness for C5 (amended) at a drive that never matches and a 30 ms
timeout: `_wait_status` gives up between 30 and 40 ms, `_reach_state`
between 30 and 80 ms. -/
theorem c5_wait_bounded_witness :
    (∃ tf, waitStatus (fun _ => 0) 0x006F 0x0021 30 = Except.error tf ∧
      30 ≤ tf ∧ tf < 40) ∧
    (∃ tf, reachStateE (fun _ => 0) 0x0021 30 = Except.error tf ∧
      30 ≤ tf ∧ tf < 80) :=
  ⟨(c5_wait_bounded (fun _ => 0) 0x006F 0x0021 0x0021 30).1 (fun u => by decide),
   (c5_wait_bounded (fun _ => 0) 0x006F 0x0021 0x0021 30).2.2.2.1 (fun u => by decide)⟩

/-- A statusword whose homing-error bit (bit 13) is set can never
satisfy the homing wait condition `status &&& 0x3000 = 0x1000`,
because bit 13 is inside the mask but clear in the expected value. -/
theorem and_3000_ne_1000_of_bit13 (x : Nat) (hx : Nat.testBit x 13 = true) :
    x &&& 0x3000 ≠ 0x1000 := by
  intro h
  have hbit := congrArg (fun n => Nat.testBit n 13) h
  simp only [Nat.testBit_and] at hbit
  have h3000 : Nat.testBit 0x3000 13 = true := by decide
  have h1000 : Nat.testBit 0x1000 13 = false := by decide
  rw [hx, h3000, h1000, Bool.true_and] at hbit
  exact Bool.false_ne_true hbit.symm

/-- Counterexample to claim C6 as stated: `home` produces the very
same outcome — `TimeoutError` with the 10000 ms deadline — for a
drive that reports the homing-error bit (statusword 0x2000) at every
sample as for a drive that never reports anything (statusword 0): the
two failures are not distinct and a caller cannot distinguish them. -/
theorem c6_error_bit_indistinguishable_from_timeout :
    (home ⟨35, 0, none, none, none⟩ (fun _ => 0x2000)).2 = Except.error 10000 ∧
    (home ⟨35, 0, none, none, none⟩ (fun _ => 0x0000)).2 = Except.error 10000 ∧
    (home ⟨35, 0, none, none, none⟩ (fun _ => 0x2000)).2 =
      (home ⟨35, 0, none, none, none⟩ (fun _ => 0x0000)).2 := by
  have h1 : waitStatus (fun _ => 0x2000) 0x3000 0x1000 10000 = Except.error 10000 :=
    waitLoop_error_exact (fun _ => 0x2000) 0x3000 0x1000 10 10000 (by norm_num)
      (fun u => by show (0x2000 : Nat) &&& 0x3000 ≠ 0x1000; decide)
      10001 0 (Dvd.intro 0 rfl) (by omega) (by omega)
  have h2 : waitStatus (fun _ => 0x0000) 0x3000 0x1000 10000 = Except.error 10000 :=
    waitLoop_error_exact (fun _ => 0x0000) 0x3000 0x1000 10 10000 (by norm_num)
      (fun u => by show (0x0000 : Nat) &&& 0x3000 ≠ 0x1000; decide)
      10001 0 (Dvd.intro 0 rfl) (by omega) (by omega)
  simp only [home]
  exact ⟨h1, h2, by rw [h1, h2]⟩

/-- Claim C6 (amended): a statusword sample with the homing-error bit
(bit 13) set is never accepted as homing success — the wait mask
`0x3000` requires bit 13 clear — but it does not produce a failure
distinct from the timeout: a drive whose every sample has the error
bit set makes `home` fail with exactly the same `TimeoutError`
outcome (`Except.error 10000`) as any drive that never reaches
homing-attained, so callers cannot distinguish a homing error from a
homing timeout. -/
theorem c6_error_bit_not_success_same_timeout (cfg : HomingCfg)
    (statusErr statusSilent : Nat → Nat)
    (herr : ∀ u, Nat.testBit (statusErr u) 13 = true)
    (hsil : ∀ u, statusSilent u &&& 0x3000 ≠ 0x1000) :
    (home cfg statusErr).2 = Except.error 10000 ∧
    (home cfg statusSilent).2 = Except.error 10000 ∧
    (home cfg statusErr).2 = (home cfg statusSilent).2 := by
  have h1 : waitStatus statusErr 0x3000 0x1000 10000 = Except.error 10000 :=
    waitLoop_error_exact statusErr 0x3000 0x1000 10 10000 (by norm_num)
      (fun u => and_3000_ne_1000_of_bit13 (statusErr u) (herr u)) 10001 0
      (Dvd.intro 0 rfl) (by omega) (by omega)
  have h2 : waitStatus statusSilent 0x3000 0x1000 10000 = Except.error 10000 :=
    waitLoop_error_exact statusSilent 0x3000 0x1000 10 10000 (by norm_num)
      hsil 10001 0 (Dvd.intro 0 rfl) (by omega) (by omega)
  refine ⟨h1, h2, ?_⟩
  show waitStatus statusErr 0x3000 0x1000 10000 = waitStatus statusSilent 0x3000 0x1000 10000
  rw [h1, h2]

/-- Witness for C6 (amended) at the default homing config, an
error-bit drive (0x2000) and a silent drive (0). -/
theorem c6_error_bit_witness :
    (home ⟨35, 0, some 500, some 100, none⟩ (fun _ => 0x2000)).2 = Except.error 10000 ∧
    (home ⟨35, 0, some 500, some 100, none⟩ (fun _ => 0)).2 = Except.error 10000 ∧
    (home ⟨35, 0, some 500, some 100, none⟩ (fun _ => 0x2000)).2 =
      (home ⟨35, 0, some 500, some 100, none⟩ (fun _ => 0)).2 :=
  c6_error_bit_not_success_same_timeout ⟨35, 0, some 500, some 100, none⟩
    (fun _ => 0x2000) (fun _ => 0)
    (fun u => by show Nat.testBit 0x2000 13 = true; decide)
    (fun u => by show (0 : Nat) &&& 0x3000 ≠ 0x1000; decide)

/-- Count of the writes of `ws` targeting `(index, sub)`. -/
def countWrites (ws : List SdoWrite) (index sub : Nat) : Nat :=
  ws.countP (fun w => w.index == index && w.sub == sub)

/-- Counterexample to claim C7 as stated: for a homing configuration
whose offset field is present (offset = 5, and every optional field
present too), `home` issues exactly the six writes mode, method, fast
speed, slow speed, acceleration, start-controlword — none of them an
offset write (the CiA-402 home-offset register 0x607C is never
targeted), although the claim requires an offset write exactly when
the field is present. -/
theorem c7_offset_never_written :
    ((home ⟨35, 5, some 500, some 100, some 1000⟩ (fun _ => 0)).1.map SdoWrite.index) =
      [0x6060, 0x6098, 0x6099, 0x6099, 0x609A, 0x6040] ∧
    (home ⟨35, 5, some 500, some 100, some 1000⟩ (fun _ => 0)).1.countP
      (fun w => w.index == 0x607C) = 0 := by
  constructor
  · rfl
  · rfl

/-- Claim C7 (amended): `home` sets the operating mode to Homing
(0x6060 ← 6) first, writes the homing method register 0x6098, writes
each of the fast-speed (0x6099:1), slow-speed (0x6099:2) and
acceleration (0x609A) registers exactly when the corresponding
configuration field is present, never writes the homing offset to the
device (the offset field is ignored), then issues the start-homing
controlword 0x001F last, and then polls the statusword with mask
0x3000 expecting 0x1000, failing within the bounded default timeout
of 10 s (plus one 10 ms poll interval). -/
theorem c7_homing_writes (cfg : HomingCfg) (status : Nat → Nat) :
    (home cfg status).1.head? = some ⟨0x6060, 0, [6]⟩ ∧
    (home cfg status).1.getLast? = some ⟨0x6040, 0, u16le 0x001F⟩ ∧
    countWrites (home cfg status).1 0x6098 0 = 1 ∧
    countWrites (home cfg status).1 0x6099 1 = (if cfg.speed_fast.isSome then 1 else 0) ∧
    countWrites (home cfg status).1 0x6099 2 = (if cfg.speed_slow.isSome then 1 else 0) ∧
    countWrites (home cfg status).1 0x609A 0 = (if cfg.accel.isSome then 1 else 0) ∧
    (home cfg status).1.countP (fun w => w.index == 0x607C) = 0 ∧
    (home cfg status).2 = waitStatus status 0x3000 0x1000 10000 ∧
    ((∀ u, status u &&& 0x3000 ≠ 0x1000) →
      ∃ tf, (home cfg status).2 = Except.error tf ∧ 10000 ≤ tf ∧ tf < 10010) := by
  obtain ⟨method, offset, sf, ss, acc⟩ := cfg
  refine ⟨?_, ?_, ?_, ?_, ?_, ?_, ?_, rfl, ?_⟩
  · cases sf <;> cases ss <;> cases acc <;> rfl
  · cases sf <;> cases ss <;> cases acc <;>
      simp [home, homeWrites, List.getLast?_append]
  · cases sf <;> cases ss <;> cases acc <;>
      simp [home, homeWrites, countWrites, List.countP_append, List.countP_cons]
  · cases sf <;> cases ss <;> cases acc <;>
      simp [home, homeWrites, countWrites, List.countP_append, List.countP_cons]
  · cases sf <;> cases ss <;> cases acc <;>
      simp [home, homeWrites, countWrites, List.countP_append, List.countP_cons]
  · cases sf <;> cases ss <;> cases acc <;>
      simp [home, homeWrites, countWrites, List.countP_append, List.countP_cons]
  · cases sf <;> cases ss <;> cases acc <;>
      simp [home, homeWrites, List.countP_append, List.countP_cons]
  · intro hnm
    exact ⟨10000,
      waitLoop_error_exact status 0x3000 0x1000 10 10000 (by norm_num) hnm 10001 0
        (Dvd.intro 0 rfl) (by omega) (by omega),
      by omega, by omega⟩

/-- Witness for C7 (amended) at a config with fast speed present,
slow speed and acceleration absent, and a silent drive. -/
theorem c7_homing_writes_witness :
    (home ⟨35, 0, some 500, none, none⟩ (fun _ => 0)).1.head? = some ⟨0x6060, 0, [6]⟩ ∧
    countWrites (home ⟨35, 0, some 500, none, none⟩ (fun _ => 0)).1 0x6099 1 = 1 ∧
    countWrites (home ⟨35, 0, some 500, none, none⟩ (fun _ => 0)).1 0x6099 2 = 0 ∧
    (∃ tf, (home ⟨35, 0, some 500, none, none⟩ (fun _ => 0)).2 = Except.error tf ∧
      10000 ≤ tf ∧ tf < 10010) := by
  have h := c7_homing_writes ⟨35, 0, some 500, none, none⟩ (fun _ => 0)
  exact ⟨h.1, by simpa using h.2.2.2.1, by simpa using h.2.2.2.2.1,
    h.2.2.2.2.2.2.2.2 (fun u => by show (0 : Nat) &&& 0x3000 ≠ 0x1000; decide)⟩

/-! ## `LC10ECsvDemo._decode_state` (src/drive_demo.py)

The source masks the statusword with `0x006F` and looks the result up
in a literal dict of state names, with an `Unknown (0x....)` default
carrying the masked value formatted as four lowercase hex digits.
The dict keys are distinct, so the lookup is embedded as an
if-chain. -/

/-- One lowercase hex digit: code point 48 onward for 0-9, 97 onward
for a-f. -/
def hexDigit (n : Nat) : Char :=
  if n < 10 then Char.ofNat (48 + n) else Char.ofNat (87 + n)

/-- Four-digit zero-padded lowercase hex, as in the format
specifier `04x`. -/
def toHex4 (n : Nat) : String :=
  String.mk [hexDigit (n / 4096 % 16), hexDigit (n / 256 % 16),
             hexDigit (n / 16 % 16), hexDigit (n % 16)]

/-- Embedding of `LC10ECsvDemo._decode_state`. -/
def decode_state (status_word : Nat) : String :=
  let state_val := status_word &&& 0x006F
  if state_val = 0x0000 then "Not ready to switch on"
  else if state_val = 0x0001 then "Switch on disabled (step)"
  else if state_val = 0x0003 then "Switch on disabled / transition"
  else if state_val = 0x0004 then "Switch on disabled"
  else if state_val = 0x0040 then "Switch on disabled"
  else if state_val = 0x0021 then "Ready to switch on"
  else if state_val = 0x0023 then "Switched on"
  else if state_val = 0x0027 then "Operation enabled"
  else if state_val = 0x0007 then "Quick stop active"
  else if state_val = 0x000F then "Fault reaction active"
  else if state_val = 0x0008 then "Fault"
  else "Unknown (0x" ++ toHex4 state_val ++ ")"

/-- The masked values with a defined state name in the dict. -/
def definedStateVals : List Nat :=
  [0x0000, 0x0001, 0x0003, 0x0004, 0x0040, 0x0021, 0x0023, 0x0027, 0x0007, 0x000F, 0x0008]

/-- Claim C3: statusword decoding is a total function (it is a Lean
`def`, so it is pure and never raises), it returns exactly one state
string for every statusword, a masked pattern outside the defined
table maps to the Unknown rendering carrying the masked value, and in
particular statusword 0x0237 (masked to 0x0027) decodes to
Operation enabled. -/
theorem c3_decode_state_total (sw : Nat)
    (h : (sw &&& 0x006F) ∉ definedStateVals) :
    decode_state 0x0237 = "Operation enabled" ∧
    decode_state sw = "Unknown (0x" ++ toHex4 (sw &&& 0x006F) ++ ")" ∧
    ∀ sw2 : Nat, ∃! s : String, decode_state sw2 = s := by
  refine ⟨by decide, ?_, ?_⟩
  · simp only [definedStateVals, List.mem_cons, List.not_mem_nil, or_false, not_or] at h
    obtain ⟨h0, h1, h3, h4, h40, h21, h23, h27, h7, hF, h8⟩ := h
    simp only [decode_state]
    rw [if_neg h0, if_neg h1, if_neg h3, if_neg h4, if_neg h40, if_neg h21,
      if_neg h23, if_neg h27, if_neg h7, if_neg hF, if_neg h8]
  · intro sw2
    exact ⟨decode_state sw2, rfl, fun s hs => hs.symm⟩

/-- Witness for C3 at statusword 0x0205: masked value 0x0005 has no
defined state and decodes to the Unknown rendering. -/
theorem c3_decode_state_total_witness :
    decode_state 0x0237 = "Operation enabled" ∧
    decode_state 0x0205 = "Unknown (0x" ++ toHex4 (0x0205 &&& 0x006F) ++ ")" ∧
    ∀ sw2 : Nat, ∃! s : String, decode_state sw2 = s :=
  c3_decode_state_total 0x0205 (by decide)

/-! ## `LC10ECsvDemo._map_pdos` (src/drive_demo.py)

A straight-line sequence of `sdo_write` calls: the receive (Rx)
direction through `0x1C12`/`0x1600`, then the transmit (Tx) direction
through `0x1C13`/`0x1A00`, then one mode write.  The entry values
pack `(index << 16) | (sub << 8) | bitlen` as `<I`. -/

/-- The Rx-direction writes of `_map_pdos`, in source order. -/
def rxMapWrites : List SdoWrite :=
  [⟨0x1C12, 0, [0]⟩,
   ⟨0x1600, 0, [0]⟩,
   ⟨0x1600, 1, u32le 0x60400010⟩,
   ⟨0x1600, 2, u32le 0x60600008⟩,
   ⟨0x1600, 3, u32le 0x60FF0020⟩,
   ⟨0x1600, 0, [3]⟩,
   ⟨0x1C12, 1, u16le 0x1600⟩,
   ⟨0x1C12, 0, [1]⟩]

/-- The Tx-direction writes of `_map_pdos`, in source order. -/
def txMapWrites : List SdoWrite :=
  [⟨0x1C13, 0, [0]⟩,
   ⟨0x1A00, 0, [0]⟩,
   ⟨0x1A00, 1, u32le 0x60410010⟩,
   ⟨0x1A00, 2, u32le 0x606C0020⟩,
   ⟨0x1A00, 0, [2]⟩,
   ⟨0x1C13, 1, u16le 0x1A00⟩,
   ⟨0x1C13, 0, [1]⟩]

/-- Embedding of `LC10ECsvDemo._map_pdos`: Rx block, Tx block, then the CSV mode
write `0x6060 ← 9`. -/
def map_pdos : List SdoWrite := rxMapWrites ++ txMapWrites ++ [⟨0x6060, 0, [0x09]⟩]

/-- Classification of an Rx-direction write by the claim step it
performs: 1 clear assignment count, 2 clear mapping entry count,
3 mapping entry, 4 write entry count, 5 assignment, 6 assignment
count to 1; 0 for anything else. -/
def stepRx (w : SdoWrite) : Nat :=
  if w.index = 0x1C12 ∧ w.sub = 0 ∧ w.data = [0] then 1
  else if w.index = 0x1600 ∧ w.sub = 0 ∧ w.data = [0] then 2
  else if w.index = 0x1600 ∧ 1 ≤ w.sub then 3
  else if w.index = 0x1600 ∧ w.sub = 0 then 4
  else if w.index = 0x1C12 ∧ w.sub = 1 then 5
  else if w.index = 0x1C12 ∧ w.sub = 0 then 6
  else 0

/-- Same classification for the Tx direction. -/
def stepTx (w : SdoWrite) : Nat :=
  if w.index = 0x1C13 ∧ w.sub = 0 ∧ w.data = [0] then 1
  else if w.index = 0x1A00 ∧ w.sub = 0 ∧ w.data = [0] then 2
  else if w.index = 0x1A00 ∧ 1 ≤ w.sub then 3
  else if w.index = 0x1A00 ∧ w.sub = 0 then 4
  else if w.index = 0x1C13 ∧ w.sub = 1 then 5
  else if w.index = 0x1C13 ∧ w.sub = 0 then 6
  else 0

/-- Claim C4: the PDO mapping configurator performs, for the receive
and then the transmit direction, exactly the write sequence
clear-assignment-count (1), clear-entry-count (2), the mapping
entries in order at 1-based subindices (3), entry count (4),
assignment (5), assignment count to 1 (6); the step sequence is
monotone, so no later-step write precedes an earlier-step one. -/
theorem c4_map_pdos_write_order :
    map_pdos = rxMapWrites ++ txMapWrites ++ [⟨0x6060, 0, [0x09]⟩] ∧
    rxMapWrites.map stepRx = [1, 2, 3, 3, 3, 4, 5, 6] ∧
    txMapWrites.map stepTx = [1, 2, 3, 3, 4, 5, 6] ∧
    List.Chain' (· ≤ ·) (rxMapWrites.map stepRx) ∧
    List.Chain' (· ≤ ·) (txMapWrites.map stepTx) ∧
    (rxMapWrites.filter (fun w => stepRx w == 3)).map SdoWrite.sub = [1, 2, 3] ∧
    (txMapWrites.filter (fun w => stepTx w == 3)).map SdoWrite.sub = [1, 2] :=
  ⟨rfl, by decide, by decide,
   by rw [(by decide : rxMapWrites.map stepRx = [1, 2, 3, 3, 3, 4, 5, 6])]
      simp [List.chain'_cons],
   by rw [(by decide : txMapWrites.map stepTx = [1, 2, 3, 3, 4, 5, 6])]
      simp [List.chain'_cons],
   by decide, by decide⟩

/-! ## `LC10ECsvDemo._hold_velocity` and `run` (src/drive_demo.py)

`_hold_velocity` loops for the configured duration, exchanging
process data with the enable controlword (0x000F) and the target every
cycle; after the loop it exchanges once with target 0 and once with
the shutdown controlword (0x0006).  There is no try/finally inside
`_hold_velocity`: an exception or interrupt raised in a cycle leaves
the method without the final two exchanges.  `run` wraps everything
in try/finally whose finally block returns the network to INIT and
closes the master — the teardown — on every exit path.

The loop is modelled by the number of cycles it would run and an
interrupt schedule: `interrupt k = true` means an exception or
external interrupt fires in cycle `k` before that cycle's exchange. -/

/-- One observable action of the demo session. -/
inductive DemoCmd where
  | exchange (cw : Nat) (target : Int)
  | teardown
deriving DecidableEq, Repr

/-- Matches the shutdown-controlword exchange `0x0006`. -/
def isShutdownCmd : DemoCmd → Bool
  | DemoCmd.exchange cw _ => cw == 0x0006
  | _ => false

/-- Matches the network teardown. -/
def isTeardownCmd : DemoCmd → Bool
  | DemoCmd.teardown => true
  | _ => false

/-- Embedding of `_hold_velocity` with `n` cycles left, current cycle index `k`:
the commands it issues and whether it completed normally. -/
def holdVelocity (target : Int) (interrupt : Nat → Bool) : Nat → Nat → List DemoCmd × Bool
  | 0, _ => ([DemoCmd.exchange 0x000F 0, DemoCmd.exchange 0x0006 0], true)
  | n + 1, k =>
    if interrupt k then ([], false)
    else
      let rest := holdVelocity target interrupt n (k + 1)
      (DemoCmd.exchange 0x000F target :: rest.1, rest.2)

/-- The cyclic part of `LC10ECsvDemo.run`: the hold loop followed by
the finally-block teardown, which runs on every exit path (an
exception escaping `_hold_velocity` still passes through the finally
block before propagating). -/
def runSession (target : Int) (interrupt : Nat → Bool) (cycles : Nat) : List DemoCmd :=
  (holdVelocity target interrupt cycles 0).1 ++ [DemoCmd.teardown]

theorem holdVelocity_no_teardown (target : Int) (interrupt : Nat → Bool) :
    ∀ n k, (holdVelocity target interrupt n k).1.countP isTeardownCmd = 0 := by
  intro n
  induction n with
  | zero => intro k; rfl
  | succ m ih =>
    intro k
    by_cases hk : interrupt k
    · simp [holdVelocity, hk]
    · simp [holdVelocity, hk, List.countP_cons, ih (k + 1), isTeardownCmd]

theorem holdVelocity_normal (target : Int) (interrupt : Nat → Bool) :
    ∀ n k, (∀ j, k ≤ j → j < k + n → interrupt j = false) →
      holdVelocity target interrupt n k =
        (List.replicate n (DemoCmd.exchange 0x000F target) ++
          [DemoCmd.exchange 0x000F 0, DemoCmd.exchange 0x0006 0], true) := by
  intro n
  induction n with
  | zero => intro k _; rfl
  | succ m ih =>
    intro k hno
    have hk : interrupt k = false := hno k (le_refl k) (by omega)
    have hrest := ih (k + 1) (fun j h1 h2 => hno j (by omega) (by omega))
    simp [holdVelocity, hk, hrest, List.replicate_succ]

theorem holdVelocity_interrupted (target : Int) (interrupt : Nat → Bool) :
    ∀ n k i, k ≤ i → i < k + n → interrupt i = true →
      (∀ j, k ≤ j → j < i → interrupt j = false) →
      holdVelocity target interrupt n k =
        (List.replicate (i - k) (DemoCmd.exchange 0x000F target), false) := by
  intro n
  induction n with
  | zero => intro k i h1 h2; omega
  | succ m ih =>
    intro k i h1 h2 hi hprev
    by_cases hk : k = i
    · subst hk
      simp [holdVelocity, hi]
    · have hkf : interrupt k = false := hprev k (le_refl k) (by omega)
      have hrest := ih (k + 1) i (by omega) (by omega) hi
        (fun j hj1 hj2 => hprev j (by omega) hj2)
      have hlen : i - k = (i - (k + 1)) + 1 := by omega
      simp [holdVelocity, hkf, hrest, hlen, List.replicate_succ]

/-- Counterexample to claim C2 as stated: an external interrupt in
cycle 0 of a 5-cycle session produces a trace with zero
shutdown-controlword writes (the final zero-target and shutdown
exchanges of `_hold_velocity` are skipped, since the method has no
try/finally), even though the network teardown still runs exactly
once. -/
theorem c2_interrupt_skips_shutdown_write :
    (runSession 100 (fun k => k == 0) 5).countP isShutdownCmd = 0 ∧
    (runSession 100 (fun k => k == 0) 5).countP isTeardownCmd = 1 := by
  constructor
  · rfl
  · rfl

/-- Claim C2 (amended): the network teardown (INIT plus close) runs
exactly once per session on every exit path of the cyclic loop; on
normal completion the loop issues exactly one final zero-target
command followed by one shutdown-controlword write before the
teardown; but on an error or external-interrupt exit those two final
writes are skipped — the trace then contains no shutdown-controlword
write at all. -/
theorem c2_teardown_once_and_exit_writes (target : Int) (interrupt : Nat → Bool)
    (cycles : Nat) :
    (runSession target interrupt cycles).countP isTeardownCmd = 1 ∧
    ((∀ k, k < cycles → interrupt k = false) →
      runSession target interrupt cycles =
        List.replicate cycles (DemoCmd.exchange 0x000F target) ++
          [DemoCmd.exchange 0x000F 0, DemoCmd.exchange 0x0006 0, DemoCmd.teardown]) ∧
    (∀ i, i < cycles → interrupt i = true → (∀ j, j < i → interrupt j = false) →
      (runSession target interrupt cycles).countP isShutdownCmd = 0) := by
  refine ⟨?_, ?_, ?_⟩
  · simp [runSession, List.countP_append, holdVelocity_no_teardown, isTeardownCmd,
      List.countP_cons]
  · intro hno
    have h := holdVelocity_normal target interrupt cycles 0
      (fun j h1 h2 => hno j (by omega))
    simp [runSession, h]
  · intro i hi htrue hprev
    have h := holdVelocity_interrupted target interrupt cycles 0 i (by omega) (by omega)
      htrue (fun j _ hj => hprev j hj)
    simp only [runSession, h, List.countP_append]
    have hrep : (List.replicate (i - 0) (DemoCmd.exchange 0x000F target)).countP
        isShutdownCmd = 0 := by
      rw [List.countP_eq_zero]
      intro a ha
      rw [List.eq_of_mem_replicate ha]
      simp [isShutdownCmd]
    simp [hrep, List.countP_cons, isShutdownCmd]

/-- Witness for C2 (amended) at a 2-cycle session: normal completion
with no interrupts gives the explicit trace, with one teardown. -/
theorem c2_teardown_once_witness :
    (runSession 7 (fun _ => false) 2).countP isTeardownCmd = 1 ∧
    runSession 7 (fun _ => false) 2 =
      List.replicate 2 (DemoCmd.exchange 0x000F 7) ++
        [DemoCmd.exchange 0x000F 0, DemoCmd.exchange 0x0006 0, DemoCmd.teardown] :=
  ⟨(c2_teardown_once_and_exit_writes 7 (fun _ => false) 2).1,
   (c2_teardown_once_and_exit_writes 7 (fun _ => false) 2).2.1 (fun _ _ => rfl)⟩

/-! ## `LC10ECsvDemo._pack_outputs` (src/drive_demo.py)

The source allocates a zero byte buffer the size of the slave output
image and packs controlword (`<H` at offset 0), the fixed CSV mode 9
(`<b` at offset 2), and the target velocity (`<i` at offset 3). -/

/-- Model of `struct.pack_into(fmt, buf, off, ...)`: overwrite `bs` into `buf`
starting at `off`. -/
def setBytes (buf : List Nat) (off : Nat) (bs : List Nat) : List Nat :=
  buf.take off ++ bs ++ buf.drop (off + bs.length)

/-- Embedding of `LC10ECsvDemo._pack_outputs` for a given output-image size. -/
def pack_outputs (payload_len : Nat) (controlword : Nat) (target_velocity : Int) :
    List Nat :=
  let p0 := List.replicate payload_len 0
  let p1 := setBytes p0 0 (u16le controlword)
  let p2 := setBytes p1 2 [0x09]
  setBytes p2 3 (i32le target_velocity)

/-- Signed byte value of an unsigned byte (twos complement). -/
def decodeI8 (b : Nat) : Int := if b < 128 then (b : Int) else (b : Int) - 256

/-- Signed 32-bit value of four little-endian bytes. -/
def decodeI32 (b0 b1 b2 b3 : Nat) : Int :=
  let n := b0 + 256 * b1 + 65536 * b2 + 16777216 * b3
  if n < 2147483648 then (n : Int) else (n : Int) - 4294967296

/-- Modelled from the spec: unpacking the output buffer with the same
layout as `_pack_outputs` — controlword `u16` at offset 0, mode `i8`
at offset 2, target velocity `i32` at offset 3, little-endian.  The
source has no output-unpacking function (its `_exchange_pd` unpacks
the input buffer); this definition follows the round-trip wording of
the spec. -/
def unpack_outputs_spec (buf : List Nat) : Nat × Int × Int :=
  (buf.getD 0 0 + 256 * buf.getD 1 0,
   decodeI8 (buf.getD 2 0),
   decodeI32 (buf.getD 3 0) (buf.getD 4 0) (buf.getD 5 0) (buf.getD 6 0))

/-- Claim C8: packing a (controlword, mode, target) tuple at the
configured little-endian offsets and unpacking with the same layout
returns the original tuple — the mode is the fixed CSV mode 9 — for
every controlword below 2^16 and every signed 32-bit target, on any
output image of at least 7 bytes; and concretely, for
controlword 0x000F, mode 9, target -500 the packed bytes are
0F 00 09 0C FE FF FF. -/
theorem c8_pack_unpack_roundtrip (payload_len controlword : Nat) (target : Int)
    (hlen : 7 ≤ payload_len) (hcw : controlword < 65536)
    (hlo : -2147483648 ≤ target) (hhi : target < 2147483648) :
    unpack_outputs_spec (pack_outputs payload_len controlword target) =
      (controlword, 9, target) ∧
    pack_outputs 7 0x000F (-500) = [0x0F, 0x00, 0x09, 0x0C, 0xFE, 0xFF, 0xFF] := by
  constructor
  · obtain ⟨m, rfl⟩ : ∃ m, payload_len = 7 + m := ⟨payload_len - 7, by omega⟩
    have hrep : List.replicate (7 + m) (0 : Nat) =
        0 :: 0 :: 0 :: 0 :: 0 :: 0 :: 0 :: List.replicate m 0 := by
      rw [List.replicate_add]
      rfl
    have hmod : (0 : Int) ≤ target % 4294967296 := Int.emod_nonneg target (by norm_num)
    have hmod2 : target % 4294967296 < 4294967296 := Int.emod_lt_of_pos target (by norm_num)
    have hcast : ((target % 4294967296).toNat : Int) = target % 4294967296 :=
      Int.toNat_of_nonneg hmod
    simp only [pack_outputs, hrep, setBytes, u16le, i32le, u32le, List.take, List.drop,
      List.length, unpack_outputs_spec, List.cons_append, List.nil_append,
      List.getD_cons_zero, List.getD_cons_succ, Prod.mk.injEq]
    refine ⟨by omega, ?_, ?_⟩
    · show decodeI8 9 = 9
      decide
    · simp only [decodeI32]
      set n := (target % 4294967296).toNat with hn
      have hlt : n < 4294967296 := by omega
      have hsum : n % 256 + 256 * (n / 256 % 256) + 65536 * (n / 65536 % 256) +
          16777216 * (n / 16777216 % 256) = n := by omega
      rw [hsum]
      split <;> omega
  · decide

/-- Witness for C8 at the concrete scenario of the spec:
controlword 0x000F, mode 9, target velocity -500, 7-byte image. -/
theorem c8_pack_unpack_roundtrip_witness :
    unpack_outputs_spec (pack_outputs 7 0x000F (-500)) = (0x000F, 9, -500) ∧
    pack_outputs 7 0x000F (-500) = [0x0F, 0x00, 0x09, 0x0C, 0xFE, 0xFF, 0xFF] :=
  c8_pack_unpack_roundtrip 7 0x000F (-500) (by norm_num) (by norm_num)
    (by norm_num) (by norm_num)

/-! ## Setup persistence (src/ethercat_control/config.py)

`save_setup` dumps a `SetupConfig` to a JSON file, `load_setup` parses
one back.  `json.dump`/`json.load` are a faithful inverse pair on the
value trees produced here, so persistence is embedded at the level of
the JSON value tree `J`.  File-system plumbing (`Path.resolve`,
opening files) is out of scope; `Path` values are modelled as their
string form, with `expanduser` the only `Path` operation the loader
applies to a config field. -/

/-- A JSON value. -/
inductive J where
  | null : J
  | str : String → J
  | num : Int → J
  | arr : List J → J
  | obj : List (String × J) → J

/-- The `Limits` dataclass. -/
structure Limits where
  max_rpm : Int
  accel_rpm_s : Int
  decel_rpm_s : Int
  pos_min : Option Int
  pos_max : Option Int
deriving Repr

/-- The `Homing` dataclass. -/
structure Homing where
  method : Int
  offset : Int
  speed_fast : Option Int
  speed_slow : Option Int
  accel : Option Int
deriving Repr

/-- The `ServoConfig` dataclass; `alias` is a Lean keyword, so the field
is called `alias_num`.  `esi` is the `Path` in string form. -/
structure ServoConfig where
  name : String
  alias_num : Int
  position : Int
  esi : String
  limits : Limits
  homing : Homing
  mode : String
deriving Repr

/-- The `SetupConfig` dataclass. -/
structure SetupConfig where
  network_interface : String
  servos : List ServoConfig
  cycle_time_ms : Int
  description : Option String
deriving Repr

/-- Modelled from the spec boundary (Python `pathlib`, external to the
repository): `Path.expanduser` rewrites a leading tilde to the home
directory and leaves every other path unchanged.  Only the
unchanged branch matters below; the round-trip claim is conditioned
on already-expanded paths.  The leading tilde is tested on the
character list of the path string. -/
def expanduser (p : String) : String :=
  if p.data.head? = some (Char.ofNat 126) then
    "/home/user" ++ String.mk p.data.tail
  else p

/-- JSON encoding of an optional int (`None` becomes `null`). -/
def optIntJ : Option Int → J
  | none => J.null
  | some n => J.num n

/-- JSON encoding of an optional string. -/
def optStrJ : Option String → J
  | none => J.null
  | some s => J.str s

/-- The `limits` object written by `save_setup`. -/
def limitsToJ (l : Limits) : J :=
  J.obj [("max_rpm", J.num l.max_rpm), ("accel_rpm_s", J.num l.accel_rpm_s),
         ("decel_rpm_s", J.num l.decel_rpm_s), ("pos_min", optIntJ l.pos_min),
         ("pos_max", optIntJ l.pos_max)]

/-- The `homing` object written by `save_setup`. -/
def homingToJ (h : Homing) : J :=
  J.obj [("method", J.num h.method), ("offset", J.num h.offset),
         ("speed_fast", optIntJ h.speed_fast), ("speed_slow", optIntJ h.speed_slow),
         ("accel", optIntJ h.accel)]

/-- One servo entry written by `save_setup` (`esi` is `str(servo.esi)`). -/
def servoToJ (s : ServoConfig) : J :=
  J.obj [("name", J.str s.name), ("alias", J.num s.alias_num),
         ("position", J.num s.position), ("esi", J.str s.esi), ("mode", J.str s.mode),
         ("limits", limitsToJ s.limits), ("homing", homingToJ s.homing)]

/-- Embedding of `save_setup`: the JSON payload written to the file. -/
def save_setup (c : SetupConfig) : J :=
  J.obj [("description", optStrJ c.description),
         ("network_interface", J.str c.network_interface),
         ("cycle_time_ms", J.num c.cycle_time_ms),
         ("servos", J.arr (c.servos.map servoToJ))]

/-- Python `dict` lookup on a JSON object. -/
def jGet : List (String × J) → String → Option J
  | [], _ => none
  | (k, v) :: rest, key => if k = key then some v else jGet rest key

/-- Python `data.get(key, default)`. -/
def jGetD (kvs : List (String × J)) (key : String) (dflt : J) : J :=
  (jGet kvs key).getD dflt

/-- An int-typed JSON field (`TypeError` otherwise). -/
def asInt : J → Except String Int
  | J.num n => Except.ok n
  | _ => Except.error "expected int"

/-- An optional-int field: `None` for `null`. -/
def asOptInt : J → Except String (Option Int)
  | J.null => Except.ok none
  | J.num n => Except.ok (some n)
  | _ => Except.error "expected int or null"

/-- A string-typed JSON field. -/
def asStr : J → Except String String
  | J.str s => Except.ok s
  | _ => Except.error "expected str"

/-- An optional-string field: `None` for `null`. -/
def asOptStr : J → Except String (Option String)
  | J.null => Except.ok none
  | J.str s => Except.ok (some s)
  | _ => Except.error "expected str or null"

/-- An object-typed JSON field. -/
def asObj : J → Except String (List (String × J))
  | J.obj kvs => Except.ok kvs
  | _ => Except.error "expected object"

/-- An array-typed JSON field. -/
def asArr : J → Except String (List J)
  | J.arr xs => Except.ok xs
  | _ => Except.error "expected array"

/-- Embedding of `_dict_to_limits`. -/
def dict_to_limits (d : List (String × J)) : Except String Limits := do
  let a ← asInt (jGetD d "max_rpm" (J.num 3000))
  let b ← asInt (jGetD d "accel_rpm_s" (J.num 1000))
  let c ← asInt (jGetD d "decel_rpm_s" (J.num 1000))
  let pmin ← asOptInt (jGetD d "pos_min" J.null)
  let pmax ← asOptInt (jGetD d "pos_max" J.null)
  Except.ok ⟨a, b, c, pmin, pmax⟩

/-- Embedding of `_dict_to_homing`. -/
def dict_to_homing (d : List (String × J)) : Except String Homing := do
  let m ← asInt (jGetD d "method" (J.num 35))
  let o ← asInt (jGetD d "offset" (J.num 0))
  let sf ← asOptInt (jGetD d "speed_fast" J.null)
  let ss ← asOptInt (jGetD d "speed_slow" J.null)
  let ac ← asOptInt (jGetD d "accel" J.null)
  Except.ok ⟨m, o, sf, ss, ac⟩

/-- The required-field check of `_dict_to_servo`. -/
def requiredServoKeys : List String := ["name", "alias", "position", "esi"]

/-- Embedding of `_dict_to_servo`: required-field check, then nested limits and
homing, then the fields — with `expanduser` applied to `esi`. -/
def dict_to_servo (d : List (String × J)) : Except String ServoConfig :=
  if (requiredServoKeys.filter (fun k => (jGet d k).isNone)) ≠ [] then
    Except.error "Servo is missing required fields"
  else do
    let limits ← asObj (jGetD d "limits" (J.obj [])) >>= dict_to_limits
    let homing ← asObj (jGetD d "homing" (J.obj [])) >>= dict_to_homing
    let name ← asStr (jGetD d "name" J.null)
    let al ← asInt (jGetD d "alias" J.null)
    let pos ← asInt (jGetD d "position" J.null)
    let esi ← asStr (jGetD d "esi" J.null)
    let mode ← asStr (jGetD d "mode" (J.str "pp"))
    Except.ok ⟨name, al, pos, expanduser esi, limits, homing, mode⟩

/-- The servo-list comprehension of `load_setup`: sequential, first
error propagates. -/
def loadServoList : List J → Except String (List ServoConfig)
  | [] => Except.ok []
  | j :: rest => do
    let d ← asObj j
    let s ← dict_to_servo d
    let others ← loadServoList rest
    Except.ok (s :: others)

/-- Embedding of `load_setup` on the parsed JSON value. -/
def load_setup (j : J) : Except String SetupConfig := do
  let d ← asObj j
  if (jGet d "network_interface").isNone ∨ (jGet d "servos").isNone then
    Except.error "Setup JSON must include network_interface and servos."
  else do
    let servosJ ← asArr (jGetD d "servos" J.null)
    let servos ← loadServoList servosJ
    let ni ← asStr (jGetD d "network_interface" J.null)
    let ct ← asInt (jGetD d "cycle_time_ms" (J.num 10))
    let desc ← asOptStr (jGetD d "description" J.null)
    Except.ok ⟨ni, servos, ct, desc⟩

theorem asOptInt_optIntJ (o : Option Int) : asOptInt (optIntJ o) = Except.ok o := by
  cases o <;> rfl

theorem asOptStr_optStrJ (o : Option String) : asOptStr (optStrJ o) = Except.ok o := by
  cases o <;> rfl

theorem dict_to_servo_servoToJ (s : ServoConfig) (h : expanduser s.esi = s.esi) :
    (asObj (servoToJ s) >>= dict_to_servo) = Except.ok s := by
  obtain ⟨name, al, pos, esi, ⟨l1, l2, l3, l4, l5⟩, ⟨h1, h2, h3, h4, h5⟩, mode⟩ := s
  simp only at h
  simp [servoToJ, dict_to_servo, dict_to_limits, dict_to_homing, limitsToJ, homingToJ,
    jGetD, jGet, requiredServoKeys, asObj, asInt, asStr, asOptInt_optIntJ,
    asOptStr_optStrJ, bind, Except.bind, h]

theorem loadServoList_map (l : List ServoConfig)
    (h : ∀ s ∈ l, expanduser s.esi = s.esi) :
    loadServoList (l.map servoToJ) = Except.ok l := by
  induction l with
  | nil => rfl
  | cons s rest ih =>
    have hs := dict_to_servo_servoToJ s (h s (by simp))
    have hrest := ih (fun x hx => h x (by simp [hx]))
    simp only [List.map_cons, loadServoList, bind, Except.bind] at *
    cases hobj : asObj (servoToJ s) with
    | error e => rw [hobj] at hs; simp at hs
    | ok d =>
      rw [hobj] at hs
      simp only at hs
      simp [hs, hrest]

/-- Claim C10: for every `SetupConfig` whose servo ESI paths are
already user-expanded (no leading tilde), saving with `save_setup`
and reloading the written payload with `load_setup` returns a
`SetupConfig` equal to the original in every field. -/
theorem c10_setup_roundtrip (c : SetupConfig)
    (h : ∀ s ∈ c.servos, expanduser s.esi = s.esi) :
    load_setup (save_setup c) = Except.ok c := by
  obtain ⟨ni, servos, ct, desc⟩ := c
  simp only at h
  simp [load_setup, save_setup, jGetD, jGet, asObj, asArr, asStr, asInt,
    asOptStr_optStrJ, bind, Except.bind, loadServoList_map servos h]

/-- Witness for C10 at a concrete one-servo setup. -/
theorem c10_setup_roundtrip_witness :
    load_setup (save_setup ⟨"eth0",
      [⟨"servo1", 0, 0, "ESI Example/LC10E V1.04.xml",
        ⟨3000, 1000, 1000, none, some 100000⟩,
        ⟨35, 0, some 500, none, none⟩, "pp"⟩], 10, some "demo"⟩) =
      Except.ok ⟨"eth0",
        [⟨"servo1", 0, 0, "ESI Example/LC10E V1.04.xml",
          ⟨3000, 1000, 1000, none, some 100000⟩,
          ⟨35, 0, some 500, none, none⟩, "pp"⟩], 10, some "demo"⟩ :=
  c10_setup_roundtrip _ (by
    intro s hs
    rw [List.mem_singleton] at hs
    subst hs
    decide)

end EthercatControl
